import Mathlib

/-!
Verification development for the Mudrex Trade-Ideas Automation SDK
(tia_sdk).  The Python sources under src/tia_sdk are shallowly embedded:

  * executor.py  (TradeExecutor: execute_signal, close_position,
    update_sl_tp, update_leverage, _check_risk_limits,
    _reset_daily_counters) becomes a family of pure functions over an
    explicit executor state, with every Mudrex venue call modelled by a
    deterministic environment record whose entries are Except values
    (Except.error models a raised exception) and with every call that is
    actually issued recorded in an explicit call trace;
  * client.py (SignalClient.start reconnection loop) becomes a function
    from a list of connect outcomes to the list of sleeps performed;
  * models.py dataclasses become structures.

Python floats are modelled by rationals.  Python round (round half to
even), int truncation, percent-style fixed formatting and the str()
rendering of a float are modelled by pyRound, pyInt, formatFixed and
pyFloatStr below; the model of str(float) is faithful for the
decimal-representable values the SDK handles (it does not reproduce
scientific notation for extreme magnitudes).  Datetime fields that the
executor never reads (timestamps on Signal / TradeResult) are dropped;
the calendar date used by the lazy daily reset is modelled as a natural
number.
-/

deriving instance DecidableEq for Except

/-- Floor of a rational as an integer, via flooring integer division. -/
def ratFloor (q : ℚ) : ℤ :=
  Int.fdiv q.num (q.den : ℤ)

/-- Python round: round half to even, as used by round(x) on a float. -/
def pyRound (q : ℚ) : ℤ :=
  let f := ratFloor q
  let r := q - (f : ℚ)
  if 2 * r < 1 then f
  else if 1 < 2 * r then f + 1
  else if f % 2 = 0 then f else f + 1

/-- Python int() on a float: truncation toward zero. -/
def pyInt (q : ℚ) : ℤ :=
  if q < 0 then -((q.num.natAbs / q.den : ℕ) : ℤ) else ((q.num.natAbs / q.den : ℕ) : ℤ)

/-- Python str(int(x)). -/
def pyIntStr (q : ℚ) : String :=
  toString (pyInt q)

/-- Fixed-point rendering with prec decimal places, the model of the
Python format f-string with a .precf conversion.  The scaled value is
rounded half to even, as CPython does. -/
def formatFixed (q : ℚ) (prec : ℕ) : String :=
  let scaled : ℤ := pyRound (q * ((10 : ℚ) ^ prec))
  let sign := if scaled < 0 then "-" else ""
  let n := scaled.natAbs
  let base := 10 ^ prec
  if prec = 0 then sign ++ toString n
  else
    let fs := toString (n % base)
    let pad := String.mk (List.replicate (prec - fs.length) '0')
    sign ++ toString (n / base) ++ "." ++ pad ++ fs

/-- Number of digits after the decimal point in the shortest decimal
rendering of q: the least n with q * 10^n integral (searched up to 40).
Models len of the fractional part of str(float(q)) with trailing zeros
stripped, which is what executor.py computes as the formatting
precision, for every decimal-representable step. -/
def decCount (q : ℚ) : ℕ :=
  ((List.range 40).find? (fun n => (q * (10 : ℚ) ^ n).den = 1)).getD 0

/-- Python str() of a float, for the decimal-representable values the
SDK handles: integral values render with a trailing .0, others with
their shortest decimal expansion. -/
def pyFloatStr (q : ℚ) : String :=
  if q.den = 1 then toString q.num ++ ".0"
  else formatFixed q (decCount q)

/-- Truthiness of an optional float in Python: None and 0.0 are falsy. -/
def truthy (o : Option ℚ) : Bool :=
  match o with
  | some v => decide (v ≠ 0)
  | none => false

/-- Python interpolation of an optional string, rendering None verbatim. -/
def optStr (o : Option String) : String :=
  o.getD "None"

/-! ## Data model (models.py) -/

/-- Signal type enum. -/
inductive SignalType where
  | LONG
  | SHORT
deriving DecidableEq

/-- Order type enum. -/
inductive OrderType where
  | LIMIT
  | MARKET
deriving DecidableEq

/-- Trading signal received from the broadcaster.  The status and
timestamp fields of the Python dataclass are never read by the executor
and are dropped. -/
structure Signal where
  signal_id : String
  symbol : String
  signal_type : SignalType
  order_type : OrderType
  entry_price : Option ℚ := none
  stop_loss : Option ℚ := none
  take_profit : Option ℚ := none
  leverage : ℕ := 1
deriving DecidableEq

/-- Position close command. -/
structure CloseCommand where
  signal_id : String
  symbol : String
  percentage : ℚ := 100
deriving DecidableEq

/-- SL/TP edit command. -/
structure EditSLTPCommand where
  signal_id : String
  symbol : String
  stop_loss : Option ℚ := none
  take_profit : Option ℚ := none
deriving DecidableEq

/-- Leverage update command. -/
structure LeverageCommand where
  signal_id : String
  symbol : String
  leverage : ℕ
deriving DecidableEq

/-- Result of trade execution.  The executed_at timestamp is dropped. -/
structure TradeResult where
  signal_id : String
  symbol : String
  success : Bool
  message : String
  order_id : Option String := none
  entry_price : Option ℚ := none
  quantity : Option ℚ := none
deriving DecidableEq

/-! ## Venue gateway model -/

/-- An open position as reported by the venue's list_open. -/
structure Position where
  symbol : String
  position_id : String
  quantity : ℚ
deriving DecidableEq

/-- Asset metadata as returned by assets.get. -/
structure Asset where
  mark_price : ℚ
  quantity_step : Option ℚ := none
deriving DecidableEq

/-- One venue gateway call as issued by the executor, recorded in the
call trace with the arguments the Python code passes. -/
inductive VenueCall where
  | getBalance
  | listOpen
  | getAsset (symbol : String)
  | createMarketOrder (symbol side quantity : String) (leverage : ℕ)
  | createLimitOrder (symbol side quantity price : String) (leverage : ℕ)
  | setRiskOrder (position_id : String) (stoploss takeprofit : Option String)
  | closePos (position_id : String)
  | closePart (position_id : String) (quantity : String)
deriving DecidableEq

/-- Deterministic model of the Mudrex gateway for one entry-point
invocation: each field is the outcome of the corresponding venue call,
with Except.error e modelling a raised exception carrying message e.
list_open_retry is the re-query issued after the fixed 2 second delay
of the SL/TP attachment step; market/limit order results carry the
optional order_id attribute of the returned order object. -/
structure VenueEnv where
  futures_balance : Except String ℚ
  list_open : Except String (List Position)
  asset : Except String (Option Asset)
  market_order : Except String (Option String)
  limit_order : Except String (Option String)
  list_open_retry : Except String (List Position)
  set_risk : Except String Unit
  close_full : Except String Unit
  close_part : Except String Unit

/-! ## Executor state and configuration (config.py, executor.py) -/

/-- Trading parameters (TradingConfig). -/
structure TradingConfig where
  enabled : Bool := true
  trade_amount_usdt : ℚ := 5
  max_leverage : ℕ := 25
  min_order_value : ℚ := 5
  auto_execute : Bool := true
deriving DecidableEq

/-- Risk management parameters (RiskConfig). -/
structure RiskConfig where
  max_daily_trades : ℕ := 999999
  max_open_positions : ℕ := 999999
  stop_on_daily_loss : ℚ := 0
  min_balance : ℚ := 0
deriving DecidableEq

/-- The slice of Config the executor reads. -/
structure Config where
  trading : TradingConfig
  risk : RiskConfig
deriving DecidableEq

/-- Mutable state of a TradeExecutor: daily counters, lazy-reset date
and the local open-position tracking map (signal_id to Signal, as an
association list). -/
structure ExecState where
  daily_trades : ℕ
  daily_loss : ℚ
  last_reset : ℕ
  open_positions : List (String × Signal)
deriving DecidableEq

/-- State of a freshly constructed TradeExecutor. -/
def initState (today : ℕ) : ExecState :=
  { daily_trades := 0, daily_loss := 0, last_reset := today, open_positions := [] }

/-- Dictionary assignment open_positions[k] = v on the association-list
model. -/
def upsert (m : List (String × Signal)) (k : String) (v : Signal) :
    List (String × Signal) :=
  (k, v) :: m.filter (fun p => p.1 ≠ k)

/-- Outcome of _check_risk_limits together with the state after the lazy
daily reset and the venue calls issued. -/
structure GateOut where
  state : ExecState
  ok : Bool
  reason : String
  calls : List VenueCall
deriving DecidableEq

/-- Outcome of one executor entry point: new state, the TradeResult
returned, and the venue calls issued. -/
structure RunOut where
  state : ExecState
  result : TradeResult
  calls : List VenueCall
deriving DecidableEq

/-- A failure TradeResult with only the message set, as the Python code
constructs on every failure path. -/
def failRes (signal_id symbol msg : String) : TradeResult :=
  { signal_id := signal_id, symbol := symbol, success := false, message := msg }

/-! ## Executor operations (executor.py) -/

/-- TradeExecutor._reset_daily_counters: zero both daily counters when
the calendar date changed. -/
def reset_daily_counters (today : ℕ) (s : ExecState) : ExecState :=
  if today ≠ s.last_reset then
    { s with daily_trades := 0, daily_loss := 0, last_reset := today }
  else s

/-- TradeExecutor._check_risk_limits, lines 47-84 of executor.py:
lazy daily reset, then enabled flag, daily trade limit, open-position
limit, daily loss limit (only when configured positive), and finally
the balance fetched from the venue, in that order, short-circuiting. -/
def check_risk_limits (cfg : Config) (env : VenueEnv) (today : ℕ)
    (s0 : ExecState) : GateOut :=
  let s := reset_daily_counters today s0
  if cfg.trading.enabled = false then
    ⟨s, false, "Trading is disabled in config", []⟩
  else if cfg.risk.max_daily_trades ≤ s.daily_trades then
    ⟨s, false, "Daily trade limit reached (" ++ toString cfg.risk.max_daily_trades ++ ")", []⟩
  else if cfg.risk.max_open_positions ≤ s.open_positions.length then
    ⟨s, false, "Max open positions reached (" ++ toString cfg.risk.max_open_positions ++ ")", []⟩
  else if 0 < cfg.risk.stop_on_daily_loss ∧ cfg.risk.stop_on_daily_loss ≤ s.daily_loss then
    ⟨s, false, "Daily loss limit reached (" ++ formatFixed s.daily_loss 2 ++ " USDT)", []⟩
  else
    match env.futures_balance with
    | Except.error e => ⟨s, false, "Failed to check balance: " ++ e, [VenueCall.getBalance]⟩
    | Except.ok bal =>
      if bal < cfg.risk.min_balance then
        ⟨s, false,
          "Balance too low (" ++ formatFixed bal 2 ++ " < " ++
            pyFloatStr cfg.risk.min_balance ++ " USDT)",
          [VenueCall.getBalance]⟩
      else ⟨s, true, "OK", [VenueCall.getBalance]⟩

/-- Entry reference price, line 142 of executor.py: the signal's
entry_price for a LIMIT order, the venue mark price for a MARKET
order.  none models the Python None that a LIMIT signal without an
entry price would propagate into the arithmetic. -/
def resolveEntry (sig : Signal) (a : Asset) : Option ℚ :=
  if sig.order_type = OrderType.LIMIT then sig.entry_price else some a.mark_price

/-- Effective leverage, line 145 of executor.py. -/
def effectiveLeverage (cfg : Config) (sig : Signal) : ℕ :=
  min sig.leverage cfg.trading.max_leverage

/-- Quantity sizing, lines 148-153 of executor.py: raw quantity from
notional over entry price, rounded to the venue quantity step when one
is set (a step of 0.0 is falsy in Python and skips rounding). -/
def sizedQty (cfg : Config) (sig : Signal) (a : Asset) (entry : ℚ) : ℚ :=
  let raw := cfg.trading.trade_amount_usdt * (effectiveLeverage cfg sig : ℚ) / entry
  match a.quantity_step with
  | some st => if st ≠ 0 then ((pyRound (raw / st) : ℚ)) * st else raw
  | none => raw

/-- Quantity formatting, lines 156-160 of executor.py: a truthy step
below 1 formats with the precision implied by the step, anything else
formats as str(int(quantity)). -/
def fmtQty (q : ℚ) (stepOpt : Option ℚ) : String :=
  match stepOpt with
  | some st =>
    if st ≠ 0 ∧ st < 1 then formatFixed q (decCount st) else pyIntStr q
  | none => pyIntStr q

/-- Order side string, line 163 of executor.py. -/
def sideOf (t : SignalType) : String :=
  if t = SignalType.LONG then "LONG" else "SHORT"

/-- The SL/TP attachment stage, lines 184-203 of executor.py: when the
signal carries a truthy stop loss or take profit, re-query open
positions after the fixed delay and attach the risk order to the
position when one is found.  Returns the calls issued and the message
of the exception, if one was raised. -/
def sltpStage (env : VenueEnv) (sig : Signal) : List VenueCall × Option String :=
  if truthy sig.stop_loss || truthy sig.take_profit then
    match env.list_open_retry with
    | Except.error e => ([VenueCall.listOpen], some e)
    | Except.ok ps =>
      match ps.find? (fun p => p.symbol = sig.symbol) with
      | none => ([VenueCall.listOpen], none)
      | some pos =>
        let slS := if truthy sig.stop_loss then some (pyFloatStr (sig.stop_loss.getD 0)) else none
        let tpS := if truthy sig.take_profit then some (pyFloatStr (sig.take_profit.getD 0)) else none
        match env.set_risk with
        | Except.error e =>
          ([VenueCall.listOpen, VenueCall.setRiskOrder pos.position_id slS tpS], some e)
        | Except.ok _ =>
          ([VenueCall.listOpen, VenueCall.setRiskOrder pos.position_id slS tpS], none)
  else ([], none)

/-- Message of the TypeError Python raises when a LIMIT signal carries
no entry price and None reaches the division (modelled without the
exact CPython wording). -/
def limitEntryTypeError : String :=
  "unsupported operand type for /: float and NoneType"

/-- TradeExecutor.execute_signal, lines 86-228 of executor.py: the
auto-execute flag, the risk gate, then inside the try block the
collision check against the venue open-position list, the asset fetch,
sizing, order placement, the best-effort SL/TP attachment, and finally
position tracking and the success result.  Every exception raised by a
venue call inside the try block yields the Execution error failure
result and skips the tracking update. -/
def execute_signal (cfg : Config) (env : VenueEnv) (today : ℕ) (sig : Signal)
    (s : ExecState) : RunOut :=
  if cfg.trading.auto_execute = false then
    ⟨s, failRes sig.signal_id sig.symbol "Auto-execute disabled", []⟩
  else
    let g := check_risk_limits cfg env today s
    if g.ok = false then
      ⟨g.state, failRes sig.signal_id sig.symbol ("Risk limit: " ++ g.reason), g.calls⟩
    else
      match env.list_open with
      | Except.error e =>
        ⟨g.state, failRes sig.signal_id sig.symbol ("Execution error: " ++ e),
          g.calls ++ [VenueCall.listOpen]⟩
      | Except.ok ps =>
        if ps.any (fun p => p.symbol = sig.symbol) then
          ⟨g.state, failRes sig.signal_id sig.symbol ("Position already exists for " ++ sig.symbol),
            g.calls ++ [VenueCall.listOpen]⟩
        else
          match env.asset with
          | Except.error e =>
            ⟨g.state, failRes sig.signal_id sig.symbol ("Execution error: " ++ e),
              g.calls ++ [VenueCall.listOpen, VenueCall.getAsset sig.symbol]⟩
          | Except.ok none =>
            ⟨g.state, failRes sig.signal_id sig.symbol ("Asset " ++ sig.symbol ++ " not found"),
              g.calls ++ [VenueCall.listOpen, VenueCall.getAsset sig.symbol]⟩
          | Except.ok (some a) =>
            let c2 := g.calls ++ [VenueCall.listOpen, VenueCall.getAsset sig.symbol]
            match resolveEntry sig a with
            | none =>
              ⟨g.state, failRes sig.signal_id sig.symbol
                ("Execution error: " ++ limitEntryTypeError), c2⟩
            | some entry =>
              let lev := effectiveLeverage cfg sig
              let qty := sizedQty cfg sig a entry
              let qtyStr := fmtQty qty a.quantity_step
              let side := sideOf sig.signal_type
              let orderCall :=
                if sig.order_type = OrderType.MARKET then
                  VenueCall.createMarketOrder sig.symbol side qtyStr lev
                else
                  VenueCall.createLimitOrder sig.symbol side qtyStr (pyFloatStr entry) lev
              let orderRes :=
                if sig.order_type = OrderType.MARKET then env.market_order else env.limit_order
              match orderRes with
              | Except.error e =>
                ⟨g.state, failRes sig.signal_id sig.symbol ("Execution error: " ++ e),
                  c2 ++ [orderCall]⟩
              | Except.ok oid =>
                match sltpStage env sig with
                | (c3, some e) =>
                  ⟨g.state, failRes sig.signal_id sig.symbol ("Execution error: " ++ e),
                    c2 ++ [orderCall] ++ c3⟩
                | (c3, none) =>
                  ⟨{ g.state with
                      daily_trades := g.state.daily_trades + 1,
                      open_positions := upsert g.state.open_positions sig.signal_id sig },
                    { signal_id := sig.signal_id, symbol := sig.symbol, success := true,
                      message := "Order placed: " ++ side ++ " " ++ qtyStr ++ " @ " ++
                        pyFloatStr entry,
                      order_id := oid, entry_price := some entry, quantity := some qty },
                    c2 ++ [orderCall] ++ c3⟩

/-- TradeExecutor.close_position, lines 230-298 of executor.py: find the
venue position for the symbol (absence is the no-open-position
failure), close fully when percentage is at least 100, otherwise round
the partial quantity to the step and close partially; a full close
removes the signal from the tracking map when present.  Exceptions
yield the Close error failure. -/
def close_position (env : VenueEnv) (c : CloseCommand) (s : ExecState) : RunOut :=
  match env.list_open with
  | Except.error e =>
    ⟨s, failRes c.signal_id c.symbol ("Close error: " ++ e), [VenueCall.listOpen]⟩
  | Except.ok ps =>
    match ps.find? (fun p => p.symbol = c.symbol) with
    | none =>
      ⟨s, failRes c.signal_id c.symbol ("No open position for " ++ c.symbol),
        [VenueCall.listOpen]⟩
    | some pos =>
      if (100 : ℚ) ≤ c.percentage then
        match env.close_full with
        | Except.error e =>
          ⟨s, failRes c.signal_id c.symbol ("Close error: " ++ e),
            [VenueCall.listOpen, VenueCall.closePos pos.position_id]⟩
        | Except.ok _ =>
          ⟨{ s with open_positions := s.open_positions.filter (fun p => p.1 ≠ c.signal_id) },
            { signal_id := c.signal_id, symbol := c.symbol, success := true,
              message := "Position closed (" ++ pyFloatStr c.percentage ++ "%)" },
            [VenueCall.listOpen, VenueCall.closePos pos.position_id]⟩
      else
        let rq := pos.quantity * (c.percentage / 100)
        match env.asset with
        | Except.error e =>
          ⟨s, failRes c.signal_id c.symbol ("Close error: " ++ e),
            [VenueCall.listOpen, VenueCall.getAsset c.symbol]⟩
        | Except.ok aOpt =>
          let qtyStr :=
            match aOpt with
            | some a =>
              match a.quantity_step with
              | some st =>
                if st ≠ 0 then
                  let q := ((pyRound (rq / st) : ℚ)) * st
                  if st < 1 then formatFixed q (decCount st) else pyIntStr q
                else pyFloatStr rq
              | none => pyFloatStr rq
            | none => pyFloatStr rq
          match env.close_part with
          | Except.error e =>
            ⟨s, failRes c.signal_id c.symbol ("Close error: " ++ e),
              [VenueCall.listOpen, VenueCall.getAsset c.symbol,
                VenueCall.closePart pos.position_id qtyStr]⟩
          | Except.ok _ =>
            ⟨s,
              { signal_id := c.signal_id, symbol := c.symbol, success := true,
                message := "Position closed (" ++ pyFloatStr c.percentage ++ "%)" },
              [VenueCall.listOpen, VenueCall.getAsset c.symbol,
                VenueCall.closePart pos.position_id qtyStr]⟩

/-- TradeExecutor.update_sl_tp, lines 300-344 of executor.py.  The
executor state is never touched by this entry point, so only the
result and the call trace are returned. -/
def update_sl_tp (env : VenueEnv) (e : EditSLTPCommand) : TradeResult × List VenueCall :=
  match env.list_open with
  | Except.error err =>
    (failRes e.signal_id e.symbol ("Update error: " ++ err), [VenueCall.listOpen])
  | Except.ok ps =>
    match ps.find? (fun p => p.symbol = e.symbol) with
    | none =>
      (failRes e.signal_id e.symbol ("No open position for " ++ e.symbol), [VenueCall.listOpen])
    | some pos =>
      let slS := if truthy e.stop_loss then some (pyFloatStr (e.stop_loss.getD 0)) else none
      let tpS := if truthy e.take_profit then some (pyFloatStr (e.take_profit.getD 0)) else none
      match env.set_risk with
      | Except.error err =>
        (failRes e.signal_id e.symbol ("Update error: " ++ err),
          [VenueCall.listOpen, VenueCall.setRiskOrder pos.position_id slS tpS])
      | Except.ok _ =>
        ({ signal_id := e.signal_id, symbol := e.symbol, success := true,
           message := "SL/TP updated: SL=" ++ optStr slS ++ ", TP=" ++ optStr tpS },
          [VenueCall.listOpen, VenueCall.setRiskOrder pos.position_id slS tpS])

/-- TradeExecutor.update_leverage, lines 346-381 of executor.py: the
venue capability is unavailable, so once a position is found the entry
point reports the well-defined not-supported failure. -/
def update_leverage (env : VenueEnv) (l : LeverageCommand) : TradeResult × List VenueCall :=
  match env.list_open with
  | Except.error err =>
    (failRes l.signal_id l.symbol ("Leverage error: " ++ err), [VenueCall.listOpen])
  | Except.ok ps =>
    match ps.find? (fun p => p.symbol = l.symbol) with
    | none =>
      (failRes l.signal_id l.symbol ("No open position for " ++ l.symbol), [VenueCall.listOpen])
    | some _ =>
      (failRes l.signal_id l.symbol "Leverage update not supported yet", [VenueCall.listOpen])

/-! ## Streaming client reconnection (client.py) -/

/-- SignalClient.start, lines 68-108 of client.py, restricted to its
sleep behaviour: given the sequence of connect outcomes, the list of
reconnect sleeps performed.  A failed connect sleeps the current delay
and then doubles it up to the 300 second ceiling (line 81); a
successful connect resets the delay to 5 inside connect (line 52), so
the sleep after that connection ends uses 5 and the loop continues
with delay 5. -/
def clientSleeps : List Bool → ℕ → List ℕ
  | [], _ => []
  | false :: rest, d => d :: clientSleeps rest (min (d * 2) 300)
  | true :: rest, _ => 5 :: clientSleeps rest 5

/-- Initial reconnect delay of a SignalClient (line 25 of client.py). -/
def initialReconnectDelay : ℕ := 5

/-! ## Helpers over the call trace -/

/-- Recognize an order-placement call. -/
def isOrderCall : VenueCall → Bool
  | VenueCall.createMarketOrder _ _ _ _ => true
  | VenueCall.createLimitOrder _ _ _ _ _ => true
  | _ => false

/-- The quantity string of an order-placement call. -/
def orderQty : VenueCall → Option String
  | VenueCall.createMarketOrder _ _ q _ => some q
  | VenueCall.createLimitOrder _ _ q _ _ => some q
  | _ => none

/-- The leverage of an order-placement call. -/
def orderLev : VenueCall → Option ℕ
  | VenueCall.createMarketOrder _ _ _ l => some l
  | VenueCall.createLimitOrder _ _ _ _ l => some l
  | _ => none

/-! ## Concrete fixtures used by witnesses -/

/-- Fixture: the default configuration of config.py. -/
def fixCfg : Config := { trading := {}, risk := {} }

/-- Fixture: an asset with mark price 100 and quantity step 0.001. -/
def fixAsset : Asset := { mark_price := 100, quantity_step := some (1 / 1000) }

/-- Fixture: an open BTCUSDT position on the venue. -/
def fixPos : Position := { symbol := "BTCUSDT", position_id := "pos-1", quantity := 5 / 4 }

/-- Fixture: a venue where every call succeeds; no position is open at
entry time, and the post-delay re-query finds the new position. -/
def fixEnvOk : VenueEnv :=
  { futures_balance := Except.ok 1000
  , list_open := Except.ok []
  , asset := Except.ok (some fixAsset)
  , market_order := Except.ok (some "ord-1")
  , limit_order := Except.ok (some "ord-2")
  , list_open_retry := Except.ok [fixPos]
  , set_risk := Except.ok ()
  , close_full := Except.ok ()
  , close_part := Except.ok () }

/-- Fixture: a LONG market signal asking for 50x leverage with a stop
loss attached. -/
def fixSig50 : Signal :=
  { signal_id := "sig-1", symbol := "BTCUSDT", signal_type := SignalType.LONG,
    order_type := OrderType.MARKET, leverage := 50, stop_loss := some 90 }

/-! ## Helper lemmas -/

theorem reset_open_positions (today : ℕ) (s : ExecState) :
    (reset_daily_counters today s).open_positions = s.open_positions := by
  unfold reset_daily_counters; split <;> rfl

theorem check_risk_limits_state (cfg : Config) (env : VenueEnv) (today : ℕ) (s : ExecState) :
    (check_risk_limits cfg env today s).state = reset_daily_counters today s := by
  unfold check_risk_limits
  dsimp only
  repeat' split
  all_goals rfl

theorem check_risk_limits_calls (cfg : Config) (env : VenueEnv) (today : ℕ) (s : ExecState) :
    (check_risk_limits cfg env today s).calls = [] ∨
      (check_risk_limits cfg env today s).calls = [VenueCall.getBalance] := by
  unfold check_risk_limits
  dsimp only
  repeat' split
  all_goals simp

theorem sltpStage_calls (env : VenueEnv) (sig : Signal) :
    ((sltpStage env sig).1).filter isOrderCall = [] ∧
      ((sltpStage env sig).1).filterMap orderQty = [] ∧
      ((sltpStage env sig).1).filterMap orderLev = [] := by
  unfold sltpStage
  dsimp only
  repeat' split
  all_goals simp [isOrderCall, orderQty, orderLev]

theorem clientSleeps_replicate (k : ℕ) : ∀ d : ℕ, d ≤ 300 →
    clientSleeps (List.replicate k false) d =
      (List.range k).map (fun n => min (d * 2 ^ n) 300) := by
  induction k with
  | zero => intro d _; simp [clientSleeps]
  | succ k ih =>
    intro d hd
    rw [List.replicate_succ, clientSleeps, List.range_succ_eq_map, List.map_cons]
    congr 1
    · simp
      omega
    · rw [ih (min (d * 2) 300) (min_le_right _ _), List.map_map]
      apply List.map_congr_left
      intro n _
      show min (min (d * 2) 300 * 2 ^ n) 300 = min (d * 2 ^ (n + 1)) 300
      have h1 : d * 2 ^ (n + 1) = d * 2 * 2 ^ n := by ring
      rw [h1]
      rcases le_total (d * 2) 300 with h | h
      · rw [min_eq_left h]
      · have h2 : (0:ℕ) < 2 ^ n := Nat.pos_pow_of_pos n (by norm_num)
        have h3 : 300 ≤ d * 2 * 2 ^ n := le_trans h (Nat.le_mul_of_pos_right _ h2)
        have h4 : 300 ≤ 300 * 2 ^ n := Nat.le_mul_of_pos_right _ h2
        rw [min_eq_right h, min_eq_right h4, min_eq_right h3]

/-! ## Claim theorems -/

/-- C5: the streaming client's retry delay starts at 5 seconds, doubles
on each consecutive connection failure, is clamped at the 300 second
ceiling, and resets to 5 immediately after any successful connect; in
particular seven consecutive failures wait 5, 10, 20, 40, 80, 160,
300 seconds. -/
theorem c5_reconnect_backoff :
    (∀ k : ℕ, clientSleeps (List.replicate k false) initialReconnectDelay =
        (List.range k).map (fun n => min (initialReconnectDelay * 2 ^ n) 300)) ∧
    (∀ (rest : List Bool) (d : ℕ), clientSleeps (true :: rest) d = 5 :: clientSleeps rest 5) ∧
    clientSleeps (List.replicate 7 false) initialReconnectDelay = [5, 10, 20, 40, 80, 160, 300] :=
  ⟨fun k => clientSleeps_replicate k 5 (by norm_num), fun _ _ => rfl, by decide⟩

/-- C8: the open-position tracking map gains the signal_id entry exactly
on a successful new-signal execution and is otherwise unchanged by
execute_signal; close_position removes the signal_id entry exactly when
a full close (percentage at least 100) succeeds, removal tolerates an
absent key, and a partial close or a failed close never changes the
map. -/
theorem c8_tracking_lifecycle :
    (∀ (cfg : Config) (env : VenueEnv) (today : ℕ) (sig : Signal) (s : ExecState),
      ((execute_signal cfg env today sig s).result.success = true →
        (execute_signal cfg env today sig s).state.open_positions =
          upsert s.open_positions sig.signal_id sig) ∧
      ((execute_signal cfg env today sig s).result.success = false →
        (execute_signal cfg env today sig s).state.open_positions = s.open_positions)) ∧
    (∀ (env : VenueEnv) (c : CloseCommand) (s : ExecState),
      ((close_position env c s).result.success = true → 100 ≤ c.percentage →
        (close_position env c s).state.open_positions =
          s.open_positions.filter (fun p => p.1 ≠ c.signal_id)) ∧
      ((close_position env c s).result.success = true → c.percentage < 100 →
        (close_position env c s).state.open_positions = s.open_positions) ∧
      ((close_position env c s).result.success = false →
        (close_position env c s).state.open_positions = s.open_positions)) := by
  constructor
  · intro cfg env today sig s
    unfold execute_signal
    dsimp only
    repeat' split
    all_goals simp [failRes, check_risk_limits_state, reset_open_positions]
  · intro env c s
    unfold close_position
    dsimp only
    repeat' split
    all_goals simp_all [failRes]

/-- C10: the daily loss counter is only ever assigned zero: it is zero
at construction, the lazy daily reset either keeps it or zeroes it,
execute_signal and close_position never change it beyond that reset,
and with a zero loss counter the daily-loss branch condition of the
risk gate (configured limit positive and loss at or above it) can
never hold, so that check can never be the failing check. -/
theorem c10_daily_loss_invariant :
    (∀ today : ℕ, (initState today).daily_loss = 0) ∧
    (∀ (today : ℕ) (s : ExecState), (reset_daily_counters today s).daily_loss = s.daily_loss ∨
        (reset_daily_counters today s).daily_loss = 0) ∧
    (∀ (cfg : Config) (env : VenueEnv) (today : ℕ) (sig : Signal) (s : ExecState),
        (execute_signal cfg env today sig s).state.daily_loss = s.daily_loss ∨
          (execute_signal cfg env today sig s).state.daily_loss = 0) ∧
    (∀ (env : VenueEnv) (c : CloseCommand) (s : ExecState),
        (close_position env c s).state.daily_loss = s.daily_loss) ∧
    (∀ (cfg : Config) (today : ℕ) (s : ExecState), s.daily_loss = 0 →
        ¬(0 < cfg.risk.stop_on_daily_loss ∧
          cfg.risk.stop_on_daily_loss ≤ (reset_daily_counters today s).daily_loss)) := by
  refine ⟨fun _ => rfl, ?_, ?_, ?_, ?_⟩
  · intro today s
    unfold reset_daily_counters
    split <;> simp
  · intro cfg env today sig s
    have hr : (reset_daily_counters today s).daily_loss = s.daily_loss ∨
        (reset_daily_counters today s).daily_loss = 0 := by
      unfold reset_daily_counters
      split <;> simp
    unfold execute_signal
    dsimp only
    repeat' split
    all_goals simp only [failRes, check_risk_limits_state]
    all_goals try exact hr
    all_goals simp
  · intro env c s
    unfold close_position
    dsimp only
    repeat' split
    all_goals simp [failRes]
  · intro cfg today s hl
    have h0 : (reset_daily_counters today s).daily_loss = 0 := by
      unfold reset_daily_counters
      split <;> simp [hl]
    rw [h0]
    rintro ⟨h1, h2⟩
    exact absurd (h1.trans_le h2) (lt_irrefl 0)

/-- C4: the leverage used for sizing and order placement in every
new-signal execution is the minimum of the signal's leverage and the
configured maximum; with signal leverage 50 and configured maximum 25
the placed order carries leverage 25. -/
theorem c4_effective_leverage :
    (∀ (cfg : Config) (env : VenueEnv) (today : ℕ) (sig : Signal) (s : ExecState) (l : ℕ),
      l ∈ (execute_signal cfg env today sig s).calls.filterMap orderLev →
        l = min sig.leverage cfg.trading.max_leverage) ∧
    (execute_signal fixCfg fixEnvOk 0 fixSig50 (initState 0)).calls.filterMap orderLev = [25] := by
  constructor
  · intro cfg env today sig s l hl
    rcases check_risk_limits_calls cfg env today s with hc | hc <;>
    · have hsl := (sltpStage_calls env sig).2.2
      unfold execute_signal at hl
      dsimp only at hl
      repeat' split at hl
      all_goals simp_all [orderLev, effectiveLeverage]
      all_goals
        rcases hl with h | ⟨a, ha, hfa⟩
        · exact h
        · rw [hsl a ha] at hfa
          simp at hfa
  · with_unfolding_all decide

/-- C7: a close command for a symbol with no open position on the venue
returns the no-open-position failure and leaves the executor state,
its daily counters and its tracking map included, unchanged. -/
theorem c7_close_absent_position (env : VenueEnv) (c : CloseCommand) (s : ExecState)
    (ps : List Position)
    (hlist : env.list_open = Except.ok ps)
    (habs : ∀ p ∈ ps, p.symbol ≠ c.symbol) :
    close_position env c s =
      ⟨s, failRes c.signal_id c.symbol ("No open position for " ++ c.symbol),
        [VenueCall.listOpen]⟩ := by
  have hf : ps.find? (fun p => p.symbol = c.symbol) = none := by
    apply List.find?_eq_none.mpr
    intro p hp
    simp [habs p hp]
  unfold close_position
  rw [hlist]
  dsimp only
  rw [hf]

/-- C7 witness: closing BTCUSDT while the venue reports only an ETHUSDT
position fails with the no-open-position message and returns the state
untouched. -/
theorem c7_witness :
    close_position
        { fixEnvOk with
            list_open := Except.ok [{ symbol := "ETHUSDT", position_id := "p9", quantity := 1 }] }
        { signal_id := "sid-7", symbol := "BTCUSDT", percentage := 100 } (initState 3) =
      ⟨initState 3, failRes "sid-7" "BTCUSDT" ("No open position for " ++ "BTCUSDT"),
        [VenueCall.listOpen]⟩ :=
  c7_close_absent_position _ _ _ _ rfl (by with_unfolding_all decide)

/-- C6: when the venue's authoritative open-position list already holds
a position for the signal's symbol, a new-signal execution that passed
the risk gate fails with the position-already-exists message, leaves
the state at the gate's post-reset state, and issues no
create_market_order or create_limit_order call. -/
theorem c6_duplicate_position (cfg : Config) (env : VenueEnv) (today : ℕ) (sig : Signal)
    (s : ExecState) (ps : List Position) (p : Position)
    (hauto : cfg.trading.auto_execute = true)
    (hok : (check_risk_limits cfg env today s).ok = true)
    (hlist : env.list_open = Except.ok ps)
    (hp : p ∈ ps) (hsym : p.symbol = sig.symbol) :
    execute_signal cfg env today sig s =
      ⟨(check_risk_limits cfg env today s).state,
        failRes sig.signal_id sig.symbol ("Position already exists for " ++ sig.symbol),
        (check_risk_limits cfg env today s).calls ++ [VenueCall.listOpen]⟩ ∧
    (execute_signal cfg env today sig s).calls.filter isOrderCall = [] := by
  have hany : ps.any (fun p => p.symbol = sig.symbol) = true :=
    List.any_eq_true.mpr ⟨p, hp, by simp [hsym]⟩
  have h1 : execute_signal cfg env today sig s =
      ⟨(check_risk_limits cfg env today s).state,
        failRes sig.signal_id sig.symbol ("Position already exists for " ++ sig.symbol),
        (check_risk_limits cfg env today s).calls ++ [VenueCall.listOpen]⟩ := by
    unfold execute_signal
    dsimp only
    simp [hauto, hok, hlist, hany]
  refine ⟨h1, ?_⟩
  rw [h1]
  rcases check_risk_limits_calls cfg env today s with hc | hc <;> simp [hc, isOrderCall]

/-- C6 witness: a second BTCUSDT signal, arriving while the venue
already reports an open BTCUSDT position, fails with the
position-already-exists message and places no order. -/
theorem c6_witness :
    execute_signal fixCfg { fixEnvOk with list_open := Except.ok [fixPos] } 0 fixSig50
        (initState 0) =
      ⟨(check_risk_limits fixCfg { fixEnvOk with list_open := Except.ok [fixPos] } 0
          (initState 0)).state,
        failRes "sig-1" "BTCUSDT" ("Position already exists for " ++ "BTCUSDT"),
        (check_risk_limits fixCfg { fixEnvOk with list_open := Except.ok [fixPos] } 0
          (initState 0)).calls ++ [VenueCall.listOpen]⟩ ∧
    (execute_signal fixCfg { fixEnvOk with list_open := Except.ok [fixPos] } 0 fixSig50
        (initState 0)).calls.filter isOrderCall = [] :=
  c6_duplicate_position _ _ _ _ _ _ fixPos (by with_unfolding_all decide)
    (by with_unfolding_all decide) rfl (by with_unfolding_all decide)
    (by with_unfolding_all decide)

/-- C1: the risk gate evaluates its checks in the fixed order: trading
enabled, daily trade limit, open-position limit, daily loss limit
(only when configured positive), and finally the venue balance,
short-circuiting at the first failure so that no balance call (and a
fortiori no order call) is issued by an earlier failure; in
particular, when the daily-trade limit and the open-position limit are
both exceeded at once, a new-signal execution fails with the
daily-trade-limit reason, issues no venue call at all, and leaves the
state at the post-reset state.  The remaining conjuncts characterize
each check of the gate, in order, on its own scenario. -/
theorem c1_risk_gate_order
    (cfg : Config) (env : VenueEnv) (today : ℕ) (sig : Signal) (s : ExecState)
    (hauto : cfg.trading.auto_execute = true)
    (hen : cfg.trading.enabled = true)
    (hdaily : cfg.risk.max_daily_trades ≤ (reset_daily_counters today s).daily_trades)
    (hpos : cfg.risk.max_open_positions ≤ (reset_daily_counters today s).open_positions.length)
    (cfg2 : Config) (env2 : VenueEnv) (today2 : ℕ) (s2 : ExecState)
    (h2 : cfg2.trading.enabled = false)
    (cfg3 : Config) (env3 : VenueEnv) (today3 : ℕ) (s3 : ExecState)
    (h3a : cfg3.trading.enabled = true)
    (h3b : (reset_daily_counters today3 s3).daily_trades < cfg3.risk.max_daily_trades)
    (h3c : cfg3.risk.max_open_positions ≤ (reset_daily_counters today3 s3).open_positions.length)
    (cfg4 : Config) (env4 : VenueEnv) (today4 : ℕ) (s4 : ExecState)
    (h4a : cfg4.trading.enabled = true)
    (h4b : (reset_daily_counters today4 s4).daily_trades < cfg4.risk.max_daily_trades)
    (h4c : (reset_daily_counters today4 s4).open_positions.length < cfg4.risk.max_open_positions)
    (h4d : 0 < cfg4.risk.stop_on_daily_loss ∧
      cfg4.risk.stop_on_daily_loss ≤ (reset_daily_counters today4 s4).daily_loss)
    (cfg5 : Config) (env5 : VenueEnv) (today5 : ℕ) (s5 : ExecState) (bal5 : ℚ)
    (h5a : cfg5.trading.enabled = true)
    (h5b : (reset_daily_counters today5 s5).daily_trades < cfg5.risk.max_daily_trades)
    (h5c : (reset_daily_counters today5 s5).open_positions.length < cfg5.risk.max_open_positions)
    (h5d : ¬(0 < cfg5.risk.stop_on_daily_loss ∧
      cfg5.risk.stop_on_daily_loss ≤ (reset_daily_counters today5 s5).daily_loss))
    (h5e : env5.futures_balance = Except.ok bal5)
    (h5f : bal5 < cfg5.risk.min_balance)
    (cfg6 : Config) (env6 : VenueEnv) (today6 : ℕ) (s6 : ExecState) (bal6 : ℚ)
    (h6a : cfg6.trading.enabled = true)
    (h6b : (reset_daily_counters today6 s6).daily_trades < cfg6.risk.max_daily_trades)
    (h6c : (reset_daily_counters today6 s6).open_positions.length < cfg6.risk.max_open_positions)
    (h6d : ¬(0 < cfg6.risk.stop_on_daily_loss ∧
      cfg6.risk.stop_on_daily_loss ≤ (reset_daily_counters today6 s6).daily_loss))
    (h6e : env6.futures_balance = Except.ok bal6)
    (h6f : cfg6.risk.min_balance ≤ bal6) :
    execute_signal cfg env today sig s =
      ⟨reset_daily_counters today s,
        failRes sig.signal_id sig.symbol
          ("Risk limit: " ++
            ("Daily trade limit reached (" ++ toString cfg.risk.max_daily_trades ++ ")")),
        []⟩ ∧
    check_risk_limits cfg2 env2 today2 s2 =
      ⟨reset_daily_counters today2 s2, false, "Trading is disabled in config", []⟩ ∧
    check_risk_limits cfg3 env3 today3 s3 =
      ⟨reset_daily_counters today3 s3, false,
        "Max open positions reached (" ++ toString cfg3.risk.max_open_positions ++ ")", []⟩ ∧
    check_risk_limits cfg4 env4 today4 s4 =
      ⟨reset_daily_counters today4 s4, false,
        "Daily loss limit reached (" ++
          formatFixed (reset_daily_counters today4 s4).daily_loss 2 ++ " USDT)", []⟩ ∧
    check_risk_limits cfg5 env5 today5 s5 =
      ⟨reset_daily_counters today5 s5, false,
        "Balance too low (" ++ formatFixed bal5 2 ++ " < " ++
          pyFloatStr cfg5.risk.min_balance ++ " USDT)", [VenueCall.getBalance]⟩ ∧
    check_risk_limits cfg6 env6 today6 s6 =
      ⟨reset_daily_counters today6 s6, true, "OK", [VenueCall.getBalance]⟩ := by
  refine ⟨?_, ?_, ?_, ?_, ?_, ?_⟩
  · unfold execute_signal check_risk_limits
    dsimp only
    simp [hauto, hen, hdaily]
  · unfold check_risk_limits
    dsimp only
    simp [h2]
  · unfold check_risk_limits
    dsimp only
    simp [h3a, Nat.not_le.mpr h3b, h3c]
  · unfold check_risk_limits
    dsimp only
    simp [h4a, Nat.not_le.mpr h4b, Nat.not_le.mpr h4c, h4d.1, h4d.2]
  · unfold check_risk_limits
    dsimp only
    rw [if_neg (by simp [h5a]), if_neg (Nat.not_le.mpr h5b), if_neg (Nat.not_le.mpr h5c),
      if_neg h5d, h5e]
    dsimp only
    rw [if_pos h5f]
  · unfold check_risk_limits
    dsimp only
    rw [if_neg (by simp [h6a]), if_neg (Nat.not_le.mpr h6b), if_neg (Nat.not_le.mpr h6c),
      if_neg h6d, h6e]
    dsimp only
    rw [if_neg (not_lt.mpr h6f)]

/-- C1 witness: with both the daily-trade limit and the open-position
limit set to zero, a fresh executor rejects a new signal with the
daily-trade-limit reason and issues no venue call. -/
theorem c1_witness :
    execute_signal
        { trading := {}, risk := { max_daily_trades := 0, max_open_positions := 0 } }
        fixEnvOk 0 fixSig50 (initState 0) =
      ⟨reset_daily_counters 0 (initState 0),
        failRes "sig-1" "BTCUSDT"
          ("Risk limit: " ++ ("Daily trade limit reached (" ++ toString (0 : ℕ) ++ ")")),
        []⟩ :=
  (c1_risk_gate_order
    { trading := {}, risk := { max_daily_trades := 0, max_open_positions := 0 } }
    fixEnvOk 0 fixSig50 (initState 0)
    (by with_unfolding_all decide) (by with_unfolding_all decide)
    (by with_unfolding_all decide) (by with_unfolding_all decide)
    { trading := { enabled := false }, risk := {} } fixEnvOk 0 (initState 0)
    (by with_unfolding_all decide)
    { trading := {}, risk := { max_open_positions := 0 } } fixEnvOk 0 (initState 0)
    (by with_unfolding_all decide) (by with_unfolding_all decide)
    (by with_unfolding_all decide)
    { trading := {}, risk := { stop_on_daily_loss := 1 } } fixEnvOk 0
    { daily_trades := 0, daily_loss := 5, last_reset := 0, open_positions := [] }
    (by with_unfolding_all decide) (by with_unfolding_all decide)
    (by with_unfolding_all decide) (by with_unfolding_all decide)
    { trading := {}, risk := { min_balance := 10 } }
    { fixEnvOk with futures_balance := Except.ok 1 } 0 (initState 0) 1
    (by with_unfolding_all decide) (by with_unfolding_all decide)
    (by with_unfolding_all decide) (by with_unfolding_all decide) rfl
    (by with_unfolding_all decide)
    fixCfg fixEnvOk 0 (initState 0) 1000
    (by with_unfolding_all decide) (by with_unfolding_all decide)
    (by with_unfolding_all decide) (by with_unfolding_all decide) rfl
    (by with_unfolding_all decide)).1

/-- C9: every entry point of the execution pipeline returns a
TradeResult addressed to the triggering command (no venue exception
escapes: the embedding of every entry point is a total function into a
TradeResult), and a venue exception raised after the risk gate is
returned as a failure whose message carries the underlying error
message, with the failing venue call issued exactly once: the theorem
shows this for an order-placement error during execute_signal, a
close error during close_position, a set-risk-order error during
update_sl_tp and a list-positions error during update_leverage. -/
theorem c9_venue_errors_returned
    (cfg1 : Config) (env1 : VenueEnv) (today1 : ℕ) (sig1 : Signal) (s1 : ExecState)
    (ps1 : List Position) (a1 : Asset) (entry1 : ℚ) (e1 : String)
    (hauto1 : cfg1.trading.auto_execute = true)
    (hok1 : (check_risk_limits cfg1 env1 today1 s1).ok = true)
    (hlist1 : env1.list_open = Except.ok ps1)
    (hnc1 : ps1.any (fun p => p.symbol = sig1.symbol) = false)
    (hasset1 : env1.asset = Except.ok (some a1))
    (hentry1 : resolveEntry sig1 a1 = some entry1)
    (horder1 : (if sig1.order_type = OrderType.MARKET then env1.market_order
        else env1.limit_order) = Except.error e1)
    (env2 : VenueEnv) (c2 : CloseCommand) (s2 : ExecState) (ps2 : List Position)
    (p2 : Position) (e2 : String)
    (hlist2 : env2.list_open = Except.ok ps2)
    (hfind2 : ps2.find? (fun p => p.symbol = c2.symbol) = some p2)
    (hpct2 : (100 : ℚ) ≤ c2.percentage)
    (herr2 : env2.close_full = Except.error e2)
    (env3 : VenueEnv) (e3 : EditSLTPCommand) (ps3 : List Position) (p3 : Position)
    (err3 : String)
    (hlist3 : env3.list_open = Except.ok ps3)
    (hfind3 : ps3.find? (fun p => p.symbol = e3.symbol) = some p3)
    (herr3 : env3.set_risk = Except.error err3)
    (env4 : VenueEnv) (l4 : LeverageCommand) (err4 : String)
    (hlist4 : env4.list_open = Except.error err4)
    (cfg5 : Config) (env5 : VenueEnv) (today5 : ℕ) (sig5 : Signal) (s5 : ExecState)
    (e5 : String)
    (hauto5 : cfg5.trading.auto_execute = true)
    (hok5 : (check_risk_limits cfg5 env5 today5 s5).ok = true)
    (hlist5 : env5.list_open = Except.error e5)
    (env6 : VenueEnv) (c6 : CloseCommand) (s6 : ExecState) (ps6 : List Position)
    (p6 : Position) (aOpt6 : Option Asset) (e6 : String)
    (hlist6 : env6.list_open = Except.ok ps6)
    (hfind6 : ps6.find? (fun p => p.symbol = c6.symbol) = some p6)
    (hpct6 : c6.percentage < 100)
    (hasset6 : env6.asset = Except.ok aOpt6)
    (herr6 : env6.close_part = Except.error e6) :
    (∀ (cfg : Config) (env : VenueEnv) (today : ℕ) (sig : Signal) (s : ExecState),
      (execute_signal cfg env today sig s).result.signal_id = sig.signal_id ∧
      (execute_signal cfg env today sig s).result.symbol = sig.symbol) ∧
    (∀ (env : VenueEnv) (c : CloseCommand) (s : ExecState),
      (close_position env c s).result.signal_id = c.signal_id ∧
      (close_position env c s).result.symbol = c.symbol) ∧
    (∀ (env : VenueEnv) (e : EditSLTPCommand),
      (update_sl_tp env e).1.signal_id = e.signal_id ∧
      (update_sl_tp env e).1.symbol = e.symbol) ∧
    (∀ (env : VenueEnv) (l : LeverageCommand),
      (update_leverage env l).1.signal_id = l.signal_id ∧
      (update_leverage env l).1.symbol = l.symbol) ∧
    ((execute_signal cfg1 env1 today1 sig1 s1).result =
        failRes sig1.signal_id sig1.symbol ("Execution error: " ++ e1) ∧
      (execute_signal cfg1 env1 today1 sig1 s1).state =
        (check_risk_limits cfg1 env1 today1 s1).state ∧
      ((execute_signal cfg1 env1 today1 sig1 s1).calls.filter isOrderCall).length = 1) ∧
    close_position env2 c2 s2 =
      ⟨s2, failRes c2.signal_id c2.symbol ("Close error: " ++ e2),
        [VenueCall.listOpen, VenueCall.closePos p2.position_id]⟩ ∧
    (update_sl_tp env3 e3).1 = failRes e3.signal_id e3.symbol ("Update error: " ++ err3) ∧
    update_leverage env4 l4 =
      (failRes l4.signal_id l4.symbol ("Leverage error: " ++ err4), [VenueCall.listOpen]) ∧
    (execute_signal cfg5 env5 today5 sig5 s5).result =
      failRes sig5.signal_id sig5.symbol ("Execution error: " ++ e5) ∧
    ((close_position env6 c6 s6).result =
        failRes c6.signal_id c6.symbol ("Close error: " ++ e6) ∧
      (close_position env6 c6 s6).state = s6) := by
  refine ⟨?_, ?_, ?_, ?_, ?_, ?_, ?_, ?_, ?_, ?_⟩
  · intro cfg env today sig s
    unfold execute_signal
    dsimp only
    repeat' split
    all_goals simp [failRes]
  · intro env c s
    unfold close_position
    dsimp only
    repeat' split
    all_goals simp [failRes]
  · intro env e
    unfold update_sl_tp
    dsimp only
    repeat' split
    all_goals simp [failRes]
  · intro env l
    unfold update_leverage
    repeat' split
    all_goals simp [failRes]
  · refine ⟨?_, ?_, ?_⟩
    · unfold execute_signal
      dsimp only
      simp [hauto1, hok1, hlist1, hnc1, hasset1, hentry1, horder1, failRes]
    · unfold execute_signal
      dsimp only
      simp [hauto1, hok1, hlist1, hnc1, hasset1, hentry1, horder1]
    · unfold execute_signal
      dsimp only
      simp [hauto1, hok1, hlist1, hnc1, hasset1, hentry1, horder1]
      rcases check_risk_limits_calls cfg1 env1 today1 s1 with hc | hc <;>
        · rw [hc]
          split <;> simp [isOrderCall]
  · unfold close_position
    rw [hlist2]
    dsimp only
    rw [hfind2]
    dsimp only
    rw [if_pos hpct2, herr2]
  · unfold update_sl_tp
    rw [hlist3]
    dsimp only
    rw [hfind3]
    dsimp only
    rw [herr3]
  · unfold update_leverage
    rw [hlist4]
  · unfold execute_signal
    dsimp only
    simp [hauto5, hok5, hlist5, failRes]
  · constructor <;>
    · unfold close_position
      rw [hlist6]
      dsimp only
      rw [hfind6]
      dsimp only
      rw [if_neg (not_le.mpr hpct6), hasset6]
      dsimp only
      rw [herr6]

/-- C9 witness: a venue exception in list_open during update_leverage
comes back as a failure TradeResult carrying the underlying message,
obtained by applying the theorem at concrete inputs whose other error
scenarios (market-order failure, close failure, set-risk failure) are
discharged at concrete inputs as well. -/
theorem c9_witness :
    update_leverage { fixEnvOk with list_open := Except.error "lboom" }
        { signal_id := "sid-9", symbol := "BTCUSDT", leverage := 10 } =
      (failRes "sid-9" "BTCUSDT" ("Leverage error: " ++ "lboom"), [VenueCall.listOpen]) :=
  (c9_venue_errors_returned
    fixCfg { fixEnvOk with market_order := Except.error "oboom" } 0 fixSig50 (initState 0)
    [] fixAsset 100 "oboom"
    (by with_unfolding_all decide) (by with_unfolding_all decide) rfl
    (by with_unfolding_all decide) rfl (by with_unfolding_all rfl)
    (by with_unfolding_all rfl)
    { fixEnvOk with list_open := Except.ok [fixPos], close_full := Except.error "cboom" }
    { signal_id := "sid-c", symbol := "BTCUSDT", percentage := 100 } (initState 0)
    [fixPos] fixPos "cboom"
    rfl (by with_unfolding_all decide) (by with_unfolding_all decide) rfl
    { fixEnvOk with list_open := Except.ok [fixPos], set_risk := Except.error "uboom" }
    { signal_id := "sid-u", symbol := "BTCUSDT", stop_loss := some 90 }
    [fixPos] fixPos "uboom"
    rfl (by with_unfolding_all decide) rfl
    { fixEnvOk with list_open := Except.error "lboom" }
    { signal_id := "sid-9", symbol := "BTCUSDT", leverage := 10 } "lboom"
    rfl
    fixCfg { fixEnvOk with list_open := Except.error "xboom" } 0 fixSig50 (initState 0)
    "xboom"
    (by with_unfolding_all decide) (by with_unfolding_all decide) rfl
    { fixEnvOk with list_open := Except.ok [fixPos], close_part := Except.error "pboom" }
    { signal_id := "sid-p", symbol := "BTCUSDT", percentage := 50 } (initState 0)
    [fixPos] fixPos (some fixAsset) "pboom"
    rfl (by with_unfolding_all decide) (by with_unfolding_all decide) rfl rfl).2.2.2.2.2.2.2.1

/-- C2 counterexample: a new-signal execution whose entry order
placement succeeds (market order returns ord-1) and whose signal
carries a stop loss, but whose risk-order attachment call raises, does
not return a success: the returned TradeResult is a failure carrying
the attachment error, and the signal is neither recorded in the
tracking map nor counted in trades_today — refuting the claim that
any attachment failure still yields a success with the trade
recorded. -/
theorem c2_counterexample :
    (execute_signal fixCfg { fixEnvOk with set_risk := Except.error "boom" } 0 fixSig50
        (initState 0)).result.success = false ∧
    (execute_signal fixCfg { fixEnvOk with set_risk := Except.error "boom" } 0 fixSig50
        (initState 0)).result.message = "Execution error: boom" ∧
    (execute_signal fixCfg { fixEnvOk with set_risk := Except.error "boom" } 0 fixSig50
        (initState 0)).state.open_positions = [] ∧
    (execute_signal fixCfg { fixEnvOk with set_risk := Except.error "boom" } 0 fixSig50
        (initState 0)).state.daily_trades = 0 ∧
    { fixEnvOk with set_risk := Except.error "boom" }.market_order = Except.ok (some "ord-1") ∧
    truthy fixSig50.stop_loss = true := by
  with_unfolding_all decide

/-- C2 as amended: in a new-signal execution whose entry order
placement succeeds and whose signal carries a truthy stop loss or take
profit, failing to FIND the position after the fixed delay is indeed
best-effort — the attachment is skipped, the result is still a
success and the signal is recorded with trades_today incremented —
but when the post-delay re-query or the attachment call itself raises,
the pipeline returns a failure TradeResult carrying the error and does
not record the signal (the already-placed entry order is simply left
in place: no cancel call exists in the pipeline). -/
theorem c2_attach_best_effort
    (cfg : Config) (env : VenueEnv) (today : ℕ) (sig : Signal) (s : ExecState)
    (ps ps2 : List Position) (a : Asset) (entry : ℚ) (oid : Option String)
    (hauto : cfg.trading.auto_execute = true)
    (hok : (check_risk_limits cfg env today s).ok = true)
    (hlist : env.list_open = Except.ok ps)
    (hnc : ps.any (fun p => p.symbol = sig.symbol) = false)
    (hasset : env.asset = Except.ok (some a))
    (hentry : resolveEntry sig a = some entry)
    (horder : (if sig.order_type = OrderType.MARKET then env.market_order
        else env.limit_order) = Except.ok oid)
    (hsl : (truthy sig.stop_loss || truthy sig.take_profit) = true)
    (hretry : env.list_open_retry = Except.ok ps2)
    (hnf : ps2.find? (fun p => p.symbol = sig.symbol) = none)
    (cfg' : Config) (env' : VenueEnv) (today' : ℕ) (sig' : Signal) (s' : ExecState)
    (ps' ps2' : List Position) (a' : Asset) (entry' : ℚ) (oid' : Option String)
    (pos' : Position) (e' : String)
    (hauto' : cfg'.trading.auto_execute = true)
    (hok' : (check_risk_limits cfg' env' today' s').ok = true)
    (hlist' : env'.list_open = Except.ok ps')
    (hnc' : ps'.any (fun p => p.symbol = sig'.symbol) = false)
    (hasset' : env'.asset = Except.ok (some a'))
    (hentry' : resolveEntry sig' a' = some entry')
    (horder' : (if sig'.order_type = OrderType.MARKET then env'.market_order
        else env'.limit_order) = Except.ok oid')
    (hsl' : (truthy sig'.stop_loss || truthy sig'.take_profit) = true)
    (hretry' : env'.list_open_retry = Except.ok ps2')
    (hfind' : ps2'.find? (fun p => p.symbol = sig'.symbol) = some pos')
    (herr' : env'.set_risk = Except.error e')
    (cfgr : Config) (envr : VenueEnv) (todayr : ℕ) (sigr : Signal) (sr : ExecState)
    (psr : List Position) (ar : Asset) (entryr : ℚ) (oidr : Option String) (er : String)
    (hautor : cfgr.trading.auto_execute = true)
    (hokr : (check_risk_limits cfgr envr todayr sr).ok = true)
    (hlistr : envr.list_open = Except.ok psr)
    (hncr : psr.any (fun p => p.symbol = sigr.symbol) = false)
    (hassetr : envr.asset = Except.ok (some ar))
    (hentryr : resolveEntry sigr ar = some entryr)
    (horderr : (if sigr.order_type = OrderType.MARKET then envr.market_order
        else envr.limit_order) = Except.ok oidr)
    (hslr : (truthy sigr.stop_loss || truthy sigr.take_profit) = true)
    (hretryr : envr.list_open_retry = Except.error er) :
    ((execute_signal cfg env today sig s).result.success = true ∧
      (execute_signal cfg env today sig s).state.open_positions =
        upsert s.open_positions sig.signal_id sig ∧
      (execute_signal cfg env today sig s).state.daily_trades =
        (reset_daily_counters today s).daily_trades + 1) ∧
    ((execute_signal cfg' env' today' sig' s').result.success = false ∧
      (execute_signal cfg' env' today' sig' s').result.message = "Execution error: " ++ e' ∧
      (execute_signal cfg' env' today' sig' s').state = reset_daily_counters today' s') ∧
    ((execute_signal cfgr envr todayr sigr sr).result.success = false ∧
      (execute_signal cfgr envr todayr sigr sr).result.message = "Execution error: " ++ er ∧
      (execute_signal cfgr envr todayr sigr sr).state = reset_daily_counters todayr sr) := by
  refine ⟨?_, ?_, ?_⟩
  · have hst : sltpStage env sig = ([VenueCall.listOpen], none) := by
      unfold sltpStage
      simp [hsl, hretry, hnf]
    unfold execute_signal
    dsimp only
    simp [hauto, hok, hlist, hnc, hasset, hentry, horder, hst,
      check_risk_limits_state, reset_open_positions]
  · obtain ⟨c3, hc3⟩ : ∃ c3, sltpStage env' sig' = (c3, some e') := by
      unfold sltpStage
      simp [hsl', hretry', hfind', herr']
    unfold execute_signal
    dsimp only
    simp [hauto', hok', hlist', hnc', hasset', hentry', horder', hc3, failRes,
      check_risk_limits_state]
  · have hstr : sltpStage envr sigr = ([VenueCall.listOpen], some er) := by
      unfold sltpStage
      simp [hslr, hretryr]
    unfold execute_signal
    dsimp only
    simp [hautor, hokr, hlistr, hncr, hassetr, hentryr, horderr, hstr, failRes,
      check_risk_limits_state]

/-- C2 witness for the amended claim: with the post-delay re-query
finding no position the execution still succeeds and records the
trade. -/
theorem c2_witness :
    (execute_signal fixCfg { fixEnvOk with list_open_retry := Except.ok [] } 0 fixSig50
        (initState 0)).result.success = true ∧
    (execute_signal fixCfg { fixEnvOk with list_open_retry := Except.ok [] } 0 fixSig50
        (initState 0)).state.open_positions =
      upsert (initState 0).open_positions "sig-1" fixSig50 ∧
    (execute_signal fixCfg { fixEnvOk with list_open_retry := Except.ok [] } 0 fixSig50
        (initState 0)).state.daily_trades =
      (reset_daily_counters 0 (initState 0)).daily_trades + 1 :=
  (c2_attach_best_effort
    fixCfg { fixEnvOk with list_open_retry := Except.ok [] } 0 fixSig50 (initState 0)
    [] [] fixAsset 100 (some "ord-1")
    (by with_unfolding_all decide) (by with_unfolding_all decide) rfl
    (by with_unfolding_all decide) rfl (by with_unfolding_all decide)
    (by with_unfolding_all rfl) (by with_unfolding_all decide) rfl
    (by with_unfolding_all decide)
    fixCfg { fixEnvOk with set_risk := Except.error "boom" } 0 fixSig50 (initState 0)
    [] [fixPos] fixAsset 100 (some "ord-1") fixPos "boom"
    (by with_unfolding_all decide) (by with_unfolding_all decide) rfl
    (by with_unfolding_all decide) rfl (by with_unfolding_all decide)
    (by with_unfolding_all rfl) (by with_unfolding_all decide) rfl
    (by with_unfolding_all decide) rfl
    fixCfg { fixEnvOk with list_open_retry := Except.error "rboom" } 0 fixSig50 (initState 0)
    [] fixAsset 100 (some "ord-1") "rboom"
    (by with_unfolding_all decide) (by with_unfolding_all decide) rfl
    (by with_unfolding_all decide) rfl (by with_unfolding_all decide)
    (by with_unfolding_all rfl) (by with_unfolding_all decide) rfl).1

theorem check_risk_limits_no_order (cfg : Config) (env : VenueEnv) (today : ℕ)
    (s : ExecState) :
    (check_risk_limits cfg env today s).calls.filterMap orderQty = [] ∧
      (check_risk_limits cfg env today s).calls.filterMap orderLev = [] := by
  rcases check_risk_limits_calls cfg env today s with hc | hc <;>
    rw [hc] <;> simp [orderQty, orderLev]

/-- C3: every new-signal execution that reaches sizing (the venue
reports the asset with a positive quantity step, the gate and the
collision check pass, the entry reference price resolves) sizes the
order as the raw quantity trade_amount times effective leverage over
the entry price, rounded to the step as round(raw over step) times
step with round half to even, and formats it with the decimal
precision implied by a step below 1 and as an integer for a step of 1
or more: the one order-placement call carries exactly that quantity
string, and a successful result reports exactly that rounded
quantity. -/
theorem c3_quantity_sizing
    (cfg : Config) (env : VenueEnv) (today : ℕ) (sig : Signal) (s : ExecState)
    (ps : List Position) (a : Asset) (step entry : ℚ)
    (hauto : cfg.trading.auto_execute = true)
    (hok : (check_risk_limits cfg env today s).ok = true)
    (hlist : env.list_open = Except.ok ps)
    (hnc : ps.any (fun p => p.symbol = sig.symbol) = false)
    (hasset : env.asset = Except.ok (some a))
    (hstep : a.quantity_step = some step)
    (hstep0 : 0 < step)
    (hentry : resolveEntry sig a = some entry) :
    (execute_signal cfg env today sig s).calls.filterMap orderQty =
      [if step < 1 then
          formatFixed ((pyRound (cfg.trading.trade_amount_usdt *
              ((min sig.leverage cfg.trading.max_leverage : ℕ) : ℚ) / entry / step) : ℚ) * step)
            (decCount step)
        else
          pyIntStr ((pyRound (cfg.trading.trade_amount_usdt *
              ((min sig.leverage cfg.trading.max_leverage : ℕ) : ℚ) / entry / step) : ℚ) * step)] ∧
    ((execute_signal cfg env today sig s).result.success = true →
      (execute_signal cfg env today sig s).result.quantity =
        some ((pyRound (cfg.trading.trade_amount_usdt *
            ((min sig.leverage cfg.trading.max_leverage : ℕ) : ℚ) / entry / step) : ℚ) * step)) := by
  have hq : sizedQty cfg sig a entry =
      (pyRound (cfg.trading.trade_amount_usdt *
        ((min sig.leverage cfg.trading.max_leverage : ℕ) : ℚ) / entry / step) : ℚ) * step := by
    unfold sizedQty effectiveLeverage
    rw [hstep]
    dsimp only
    rw [if_pos hstep0.ne']
  have hf : fmtQty (sizedQty cfg sig a entry) a.quantity_step =
      if step < 1 then formatFixed (sizedQty cfg sig a entry) (decCount step)
      else pyIntStr (sizedQty cfg sig a entry) := by
    unfold fmtQty
    rw [hstep]
    simp [hstep0.ne']
  have key : (execute_signal cfg env today sig s).calls.filterMap orderQty =
      [fmtQty (sizedQty cfg sig a entry) a.quantity_step] ∧
      ((execute_signal cfg env today sig s).result.success = true →
        (execute_signal cfg env today sig s).result.quantity =
          some (sizedQty cfg sig a entry)) := by
    have hsm := (sltpStage_calls env sig).2.1
    have hgc := (check_risk_limits_no_order cfg env today s).1
    rcases hs : sltpStage env sig with ⟨c3, eo⟩ <;>
      rcases eo with _ | e <;>
      rcases hot : sig.order_type <;>
      rcases hmo : env.market_order with e1 | oid1 <;>
      rcases hlo : env.limit_order with e2 | oid2 <;>
      · rw [hs] at hsm
        dsimp only at hsm
        unfold execute_signal
        dsimp only
        simp [hauto, hok, hlist, hnc, hasset, hentry, hot, hmo, hlo, hs, hsm, hgc,
          orderQty, failRes]
  refine ⟨?_, ?_⟩
  · rw [key.1, hf, hq]
  · intro hsucc
    rw [key.2 hsucc, hq]

/-- C3 witness: with trade amount 5, signal leverage 50 capped at 25,
mark price 100 and quantity step 0.001, the market order is placed
with quantity string 1.250 and the success result reports quantity
1.25. -/
theorem c3_witness :
    (execute_signal fixCfg fixEnvOk 0 fixSig50 (initState 0)).calls.filterMap orderQty =
      ["1.250"] ∧
    (execute_signal fixCfg fixEnvOk 0 fixSig50 (initState 0)).result.quantity =
      some (5 / 4) := by
  have h := c3_quantity_sizing fixCfg fixEnvOk 0 fixSig50 (initState 0) [] fixAsset
    (1 / 1000) 100
    (by with_unfolding_all decide) (by with_unfolding_all decide) rfl
    (by with_unfolding_all decide) rfl (by with_unfolding_all rfl)
    (by with_unfolding_all decide) (by with_unfolding_all decide)
  refine ⟨?_, ?_⟩
  · rw [h.1]
    with_unfolding_all decide
  · rw [h.2 (by with_unfolding_all decide)]
    with_unfolding_all decide
